import Mathlib

-- Shallow embedding of the WorkTool-exetension browser extension
-- (content scripts, popup glue and background worker).  DOM nodes are
-- modelled as inductive data; machine state that the scripts mutate is
-- threaded explicitly; asynchronous platform calls (clipboard, message
-- delivery, timers) are modelled by explicit environment flags and by
-- returning the scheduled delay / emitted effects as data.

namespace WorkTool

-- JavaScript Array.prototype.join
def strJoin (sep : String) : List String → String
  | [] => ""
  | a :: as => as.foldl (fun acc x => acc ++ sep ++ x) a

-- character-list prefix test
def charsStartWith : List Char → List Char → Bool
  | [], _ => true
  | _ :: _, [] => false
  | p :: ps, c :: cs => p == c && charsStartWith ps cs

-- character-list substring test
def charsContain (pat : List Char) : List Char → Bool
  | [] => charsStartWith pat []
  | c :: cs => charsStartWith pat (c :: cs) || charsContain pat cs

-- JavaScript String.prototype.includes
def strIncludes (s pat : String) : Bool := charsContain pat.toList s.toList

-- JavaScript String.prototype.trim: strip whitespace from both ends
def jsTrim (s : String) : String :=
  String.mk (((s.toList.dropWhile Char.isWhitespace).reverse.dropWhile
    Char.isWhitespace).reverse)

-- JavaScript String.prototype.substring(0, n)
def strTake (s : String) (n : Nat) : String := String.mk (s.toList.take n)

-- JavaScript className.split(' ')[0]
def firstClassName (s : String) : String :=
  String.mk (s.toList.takeWhile (fun c => c != ' '))

-- A table cell: its text content, raw inner markup, and the number of
-- input/select/textarea controls it contains (querySelectorAll count).
structure Cell where
  textContent : String
  innerHTML : String
  inputControls : Nat
deriving DecidableEq

structure RowEl where
  cells : List Cell
deriving DecidableEq

-- An HTMLTableElement as the content script observes it: row structure,
-- computed style, bounding box, whether closest(".ui-datepicker") finds a
-- match, id/class attributes and serialized markup.  nid is the node
-- identity used for Set-based deduplication.
structure TableEl where
  nid : Nat
  rows : List RowEl
  display : String
  visibility : String
  width : Nat
  height : Nat
  inDatePicker : Bool
  idAttr : String
  className : String
  outerHTML : String
deriving DecidableEq

-- table.rows[0]?.cells.length || 0
def firstRowCellCount (t : TableEl) : Nat :=
  match t.rows with
  | [] => 0
  | r :: _ => r.cells.length

-- const content = cell.textContent?.trim() || cell.innerHTML?.trim();
-- content && content.length > 0
def cellContentNonempty (c : Cell) : Bool :=
  let t := jsTrim c.textContent
  let content := if t == "" then jsTrim c.innerHTML else t
  content != ""

-- inner loop of the strict content scan: row.cells.length > 0 and a
-- non-empty cell among the first 10 cells
def strictRowHasContent (r : RowEl) : Bool :=
  decide (0 < r.cells.length) && (r.cells.take 10).any cellContentNonempty

-- strict scan window: first 5 rows
def strictScanHasContent (t : TableEl) : Bool :=
  (t.rows.take 5).any strictRowHasContent

-- strict mode content requirement, with the structural fallback
-- (>= 2 rows and >= 2 cells in the first row)
def hasAnyContentStrict (t : TableEl) : Bool :=
  strictScanHasContent t ||
    (decide (2 ≤ t.rows.length) && decide (2 ≤ firstRowCellCount t))

-- relaxed mode content requirement:
-- table.rows.length >= 1 && table.rows[0]?.cells.length >= 1
def hasAnyContentRelaxed (t : TableEl) : Bool :=
  decide (1 ≤ t.rows.length) && decide (1 ≤ firstRowCellCount t)

-- isValidTable from the enhanced content script (CopyTools.tsx 268-348).
-- The leading null check is vacuous in the model (a TableEl always has a
-- rows collection); the try/catch never fires because the model is total.
def isValidTable (t : TableEl) (relaxedMode : Bool) : Bool :=
  if t.display == "none" || t.visibility == "hidden" then false
  else if t.rows.length < 1 then false
  else if !(if relaxedMode then hasAnyContentRelaxed t else hasAnyContentStrict t) then false
  else if !relaxedMode && t.inDatePicker then false
  else if t.width < 10 || t.height < 5 then false
  else true

-- getTableInfo (rows count, first-row column count)
def getTableInfo (t : TableEl) : Nat × Nat := (t.rows.length, firstRowCellCount t)

-- /[一-龥]/.test(s)
def containsCJK (s : String) : Bool :=
  s.toList.any (fun c => decide (0x4e00 ≤ c.toNat) && decide (c.toNat ≤ 0x9fa5))

-- /[^\x00-\x7F]/.test(s)
def containsNonASCII (s : String) : Bool :=
  s.toList.any (fun c => decide (0x7F < c.toNat))

-- Preview text of one cell in getTablePreview; none when the cell
-- contributes nothing to the preview.
def previewCellEntry (c : Cell) : Option String :=
  let t0 := jsTrim c.textContent
  let t1 :=
    if t0 == "" then
      if 0 < c.inputControls then "[" ++ toString c.inputControls ++ "个输入控件]"
      else if jsTrim c.innerHTML != "" then "[HTML内容]"
      else ""
    else t0
  if t1 == "" then none
  else
    let t2 :=
      if containsCJK t1 then t1
      else if containsNonASCII t1 && decide (10 < t1.length) then "[编码问题]"
      else t1
    let t3 := if decide (15 < t2.length) then strTake t2 15 ++ "..." else t2
    if t3 != "" && t3 != "[编码问题]" then some t3 else none

-- getTablePreview from the enhanced content script (CopyTools.tsx 357-420)
def getTablePreview (t : TableEl) : String :=
  let maxCols := min 5 (firstRowCellCount t)
  let rowStrings := (t.rows.take 3).filterMap (fun r =>
    let rowCells := (r.cells.take maxCols).filterMap previewCellEntry
    if rowCells.isEmpty then none else some (strJoin " | " rowCells))
  let preview := if rowStrings.isEmpty then "无有效内容" else strJoin " | " rowStrings
  let location :=
    if t.idAttr != "" then "#" ++ t.idAttr
    else if t.className != "" then "." ++ firstClassName t.className
    else "未命名表格"
  location ++ ": " ++ preview

-- TableDescriptor sent to the UI
structure TableInfo where
  id : Nat
  rows : Nat
  cols : Nat
  preview : String
deriving DecidableEq

-- The three candidate sources findTables unions: tables of the main
-- document, tables of each iframe (none = cross-origin, inaccessible),
-- and tables nested under the grid/table-like container selectors.
structure Dom where
  mainTables : List TableEl
  iframeDocs : List (Option (List TableEl))
  containerTables : List TableEl
deriving DecidableEq

-- push tables not yet in the processed set (identity-keyed dedup)
def addUniqueTables (acc : List TableEl × List Nat) (ts : List TableEl) :
    List TableEl × List Nat :=
  ts.foldl (fun a t => if a.2.contains t.nid then a else (a.1 ++ [t], a.2 ++ [t.nid])) acc

-- steps 1-3 of findTables: union with deduplication
def collectTables (dom : Dom) : List TableEl :=
  let acc0 := addUniqueTables ([], []) dom.mainTables
  let acc1 := dom.iframeDocs.foldl (fun a doc =>
    match doc with
    | none => a
    | some ts => addUniqueTables a ts) acc0
  (addUniqueTables acc1 dom.containerTables).1

-- findTables from the enhanced content script (CopyTools.tsx 423-484):
-- filter through the validator, project into descriptors indexed by
-- position.
def findTables (relaxedMode : Bool) (dom : Dom) : List TableInfo :=
  let found := (collectTables dom).filter (fun t => isValidTable t relaxedMode)
  found.enum.map (fun p =>
    { id := p.1, rows := p.2.rows.length, cols := firstRowCellCount p.2,
      preview := getTablePreview p.2 })

-- ------------------------------------------------------------------
-- Change Monitor: one step of performTableDetection (CopyTools.tsx
-- 155-188).  The scan result (count) and the outcome of the unreliable
-- updateTables delivery (notifyOk) come from the environment; the step
-- returns the new module state, whether a notification was attempted and
-- whether it was delivered, and the delay (ms) of the rescheduled scan,
-- if any.
-- ------------------------------------------------------------------

structure DetState where
  lastTableCount : Nat
  detectionAttempts : Nat
deriving DecidableEq

structure DetStepResult where
  state : DetState
  notified : Bool
  delivered : Bool
  sched : Option ℚ
deriving DecidableEq

def MAX_DETECTION_ATTEMPTS : Nat := 15

def performTableDetectionStep (count : Nat) (notifyOk : Bool) (st : DetState) :
    DetStepResult :=
  let shouldNotify : Bool :=
    decide (count ≠ st.lastTableCount) || decide (st.detectionAttempts = 0)
  let last1 := if shouldNotify then count else st.lastTableCount
  let delivered := shouldNotify && notifyOk
  let attempts1 := st.detectionAttempts + 1
  let sched : Option ℚ :=
    if count = 0 ∧ attempts1 < MAX_DETECTION_ATTEMPTS then
      some (min ((2000 : ℚ) * (3 / 2) ^ (attempts1 - 1)) 10000)
    else none
  { state := { lastTableCount := last1, detectionAttempts := attempts1 },
    notified := shouldNotify, delivered := delivered, sched := sched }

-- ------------------------------------------------------------------
-- Background worker (unnamed/part_001 and part_002): dynamic network
-- rules derived from the custom request headers.
-- ------------------------------------------------------------------

structure RequestHeader where
  id : String
  name : String
  value : String
  enabled : Bool
deriving DecidableEq

structure NetRule where
  id : Nat
  priority : Nat
  headerName : String
  operation : String
  value : String
  urlFilter : String
  resourceTypes : List String
deriving DecidableEq

def allResourceTypes : List String :=
  ["main_frame", "sub_frame", "stylesheet", "script", "image", "font", "object",
   "xmlhttprequest", "ping", "csp_report", "media", "websocket", "other"]

def mkNetRule (i : Nat) (h : RequestHeader) : NetRule :=
  { id := i, priority := 1, headerName := h.name, operation := "set",
    value := h.value, urlFilter := "*://*/*", resourceTypes := allResourceTypes }

structure BgState where
  customHeaders : List RequestHeader
  dynamicRules : List NetRule
deriving DecidableEq

-- clearNetworkRules: collect the ids of all installed dynamic rules and
-- remove exactly those ids (no-op when none are installed)
def clearNetworkRules (st : BgState) : BgState :=
  let ruleIds := st.dynamicRules.map (fun r => r.id)
  if 0 < ruleIds.length then
    { st with dynamicRules := st.dynamicRules.filter (fun r => !ruleIds.contains r.id) }
  else st

-- updateNetworkRules: clear first, then install one rule per header,
-- keyed 1..N by array position (updateDynamicRules addRules appends)
def updateNetworkRules (st : BgState) : BgState :=
  let st1 := clearNetworkRules st
  if st1.customHeaders.length = 0 then st1
  else
    { st1 with dynamicRules :=
        st1.dynamicRules ++ st1.customHeaders.enum.map (fun p => mkNetRule (p.1 + 1) p.2) }

-- the applyHeaders message: store the received headers, then rebuild rules
def applyHeadersBg (hs : List RequestHeader) (st : BgState) : BgState :=
  updateNetworkRules { st with customHeaders := hs }

-- the clearHeaders message
def clearHeadersBg (st : BgState) : BgState :=
  clearNetworkRules { st with customHeaders := [] }

-- ------------------------------------------------------------------
-- Clipboard Exporter.  Platform behaviour comes from ClipEnv; the DOM
-- mutations and clipboard writes a call performs are returned as an
-- ordered effect trace.
-- ------------------------------------------------------------------

inductive DomOp where
  | appendButton
  | removeButton
  | appendTextarea (value : String)
  | removeTextarea
  | clipboardWrite (text : String)
  | execCopy
deriving DecidableEq

structure CopyResult where
  success : Bool
  error : Option String
deriving DecidableEq

structure ClipEnv where
  clipboardDefined : Bool
  writeTextIsFunction : Bool
  secureContext : Bool
  writeSucceeds : Bool
  execCommandOk : Bool
deriving DecidableEq

-- navigator.clipboard && typeof navigator.clipboard.writeText === 'function'
def supportsClipboardAPIv1 (env : ClipEnv) : Bool :=
  env.clipboardDefined && env.writeTextIsFunction

-- navigator.clipboard !== undefined && window.isSecureContext
def supportsClipboardAPIv2 (env : ClipEnv) : Bool :=
  env.clipboardDefined && env.secureContext

def dummyTable : TableEl :=
  { nid := 0, rows := [], display := "", visibility := "", width := 0, height := 0,
    inDatePicker := false, idAttr := "", className := "", outerHTML := "" }

-- foundTables[tableId] under an in-range guard
def tableAt (found : List TableEl) (id : Int) : TableEl :=
  (found.get? id.toNat).getD dummyTable

-- legacy fallback of the enhanced content script: temporary textarea,
-- select, execCommand('copy'), textarea removed on both outcomes
def legacyExecCopyV1 (env : ClipEnv) (text : String) : CopyResult × List DomOp :=
  (if env.execCommandOk then { success := true, error := none }
   else { success := false, error := some "复制命令执行失败，请确保页面处于活动状态" },
   [DomOp.appendTextarea text, DomOp.execCopy, DomOp.removeTextarea])

-- modern-then-legacy pipeline of the enhanced content script: a hidden
-- temporary button is created and clicked to grab focus before
-- navigator.clipboard.writeText; on success the button is removed, on a
-- rejected write the code falls through to the legacy path without
-- removing it
def clipboardPipelineV1 (env : ClipEnv) (text : String) : CopyResult × List DomOp :=
  if supportsClipboardAPIv1 env then
    if env.writeSucceeds then
      ({ success := true, error := none },
       [DomOp.appendButton, DomOp.clipboardWrite text, DomOp.removeButton])
    else
      let legacy := legacyExecCopyV1 env text
      (legacy.1, DomOp.appendButton :: legacy.2)
  else legacyExecCopyV1 env text

-- copySingleTableToClipboard, enhanced content script (CopyTools.tsx 572-624)
def copySingleTableToClipboardV1 (env : ClipEnv) (found : List TableEl)
    (tableId : Int) : CopyResult × List DomOp :=
  if tableId < 0 ∨ (found.length : Int) ≤ tableId then
    ({ success := false, error := some "无效的表格ID" }, [])
  else clipboardPipelineV1 env (tableAt found tableId).outerHTML

-- copyTablesToClipboard, enhanced content script (CopyTools.tsx 518-569):
-- raw outerHTML fragments joined by blank lines, no index labels
def copyTablesToClipboardV1 (env : ClipEnv) (found : List TableEl) :
    CopyResult × List DomOp :=
  if found.length = 0 then ({ success := false, error := some "没有找到表格" }, [])
  else clipboardPipelineV1 env (strJoin "\n\n" (found.map (fun t => t.outerHTML)))

-- selectedIds.filter(id => id >= 0 && id < foundTables.length)
def validSelectedIds (found : List TableEl) (ids : List Int) : List Int :=
  ids.filter (fun id => decide (0 ≤ id) && decide (id < (found.length : Int)))

-- copySelectedTablesToClipboard, enhanced content script (CopyTools.tsx 627-686)
def copySelectedTablesToClipboardV1 (env : ClipEnv) (found : List TableEl)
    (ids : List Int) : CopyResult × List DomOp :=
  if ids.length = 0 then ({ success := false, error := some "没有选中的表格" }, [])
  else
    let selectedTables := (validSelectedIds found ids).map (tableAt found)
    if selectedTables.length = 0 then
      ({ success := false, error := some "选中的表格ID无效" }, [])
    else clipboardPipelineV1 env (strJoin "\n\n" (selectedTables.map (fun t => t.outerHTML)))

-- legacy fallback of the second content script (textarea removed in a
-- finally block on every outcome)
def legacyExecCopyV2 (env : ClipEnv) (text : String) : CopyResult × List DomOp :=
  (if env.execCommandOk then { success := true, error := none }
   else { success := false, error := some "execCommand复制失败" },
   [DomOp.appendTextarea text, DomOp.execCopy, DomOp.removeTextarea])

def clipboardPipelineV2 (env : ClipEnv) (text : String) : CopyResult × List DomOp :=
  if supportsClipboardAPIv2 env then
    if env.writeSucceeds then
      ({ success := true, error := none }, [DomOp.clipboardWrite text])
    else legacyExecCopyV2 env text
  else legacyExecCopyV2 env text

-- the human-readable index label of the second content script:
-- "=== 表格 N ===\n" + outerHTML + "\n"
def tableLabelV2 (n : Nat) (html : String) : String :=
  "=== 表格 " ++ toString n ++ " ===\n" ++ html ++ "\n"

-- copySingleTableToClipboard, second content script (CopyTools.tsx 1154-1200)
def copySingleTableToClipboardV2 (env : ClipEnv) (found : List TableEl)
    (tableId : Int) : CopyResult × List DomOp :=
  if tableId < 0 ∨ (found.length : Int) ≤ tableId then
    ({ success := false, error := some "表格ID无效" }, [])
  else clipboardPipelineV2 env (tableLabelV2 (tableId.toNat + 1) (tableAt found tableId).outerHTML)

-- copySelectedTablesToClipboard, second content script (CopyTools.tsx 1203-1261)
def copySelectedTablesToClipboardV2 (env : ClipEnv) (found : List TableEl)
    (ids : List Int) : CopyResult × List DomOp :=
  if ids.length = 0 then ({ success := false, error := some "没有选择表格" }, [])
  else
    let tablesText := strJoin "\n" (ids.filterMap (fun id =>
      if id < 0 ∨ (found.length : Int) ≤ id then none
      else some (tableLabelV2 (id.toNat + 1) (tableAt found id).outerHTML)))
    if tablesText == "" then ({ success := false, error := some "没有有效的表格" }, [])
    else clipboardPipelineV2 env tablesText

-- copyTablesToClipboard, second content script (CopyTools.tsx 1264-1313)
def copyTablesToClipboardV2 (env : ClipEnv) (found : List TableEl) :
    CopyResult × List DomOp :=
  if found.length = 0 then ({ success := false, error := some "没有找到表格" }, [])
  else clipboardPipelineV2 env
    (strJoin "\n" (found.enum.map (fun p => tableLabelV2 (p.1 + 1) p.2.outerHTML)))

-- ------------------------------------------------------------------
-- Copy-Protection Toggler.  A CSS style rule carries its selector and
-- its declaration block; saving rule.cssText and later assigning it back
-- is modelled as saving and restoring the rule value itself (cssText is
-- an injective serialization of the rule, so byte-for-byte cssText
-- restoration and rule-value restoration coincide).  Sheets are
-- positional lists; none marks a cross-origin sheet whose rules throw on
-- access.  Style elements appear as their textContent strings.
-- ------------------------------------------------------------------

structure CssRule where
  isStyleRule : Bool
  selectorText : String
  decls : List (String × String)
deriving DecidableEq

structure ToggleResp where
  success : Bool
  copyEnabled : Bool
  error : Option String
deriving DecidableEq

-- selector-substring match of the second content script (CopyTools.tsx
-- 1323-1333): note it inspects selectorText, not the declarations
def shouldNeutralize (r : CssRule) : Bool :=
  r.isStyleRule &&
    (r.selectorText != "" &&
      (strIncludes r.selectorText "user-select" ||
       strIncludes r.selectorText "-webkit-user-select" ||
       strIncludes r.selectorText "-moz-user-select" ||
       strIncludes r.selectorText "-ms-user-select" ||
       strIncludes r.selectorText "pointer-events" ||
       strIncludes r.selectorText "::selection" ||
       strIncludes r.selectorText "::-moz-selection"))

-- the five removeProperty calls
def stripBlockingProps (r : CssRule) : CssRule :=
  { r with decls := r.decls.filter (fun d =>
      !(d.1 == "user-select" || d.1 == "-webkit-user-select" ||
        d.1 == "-moz-user-select" || d.1 == "-ms-user-select" ||
        d.1 == "pointer-events")) }

def neutralizeRules (rs : List CssRule) : List CssRule :=
  rs.map (fun r => if shouldNeutralize r then stripBlockingProps r else r)

-- the save-table entries contributed by one sheet, keyed by rule position
-- (the Map in the source is keyed by rule object identity)
def savedRulesFrom : Nat → List CssRule → List (Nat × CssRule)
  | _, [] => []
  | j, r :: rs =>
    if shouldNeutralize r then (j, r) :: savedRulesFrom (j + 1) rs
    else savedRulesFrom (j + 1) rs

-- the whole save-table, keyed by (sheet position, rule position)
def savedAllRules : Nat → List (Option (List CssRule)) → List (Nat × Nat × CssRule)
  | _, [] => []
  | i, none :: sheets => savedAllRules (i + 1) sheets
  | i, some rs :: sheets =>
    (savedRulesFrom 0 rs).map (fun q => (i, q.1, q.2)) ++ savedAllRules (i + 1) sheets

def modifyAt {α : Type} (f : α → α) : Nat → List α → List α
  | _, [] => []
  | 0, a :: as => f a :: as
  | n + 1, a :: as => a :: modifyAt f n as

-- assigning the saved cssText back to the rule at a position
def setRuleAt (sheets : List (Option (List CssRule))) (i j : Nat) (r : CssRule) :
    List (Option (List CssRule)) :=
  modifyAt (fun os => os.map (fun rs => rs.set j r)) i sheets

-- originalStyles.forEach((originalStyle, rule) => rule.cssText = originalStyle)
def restoreSaved (saved : List (Nat × Nat × CssRule))
    (sheets : List (Option (List CssRule))) : List (Option (List CssRule)) :=
  saved.foldl (fun sh e => setRuleAt sh e.1 e.2.1 e.2.2) sheets

-- textContent of the injected allow-copy override style element of the
-- second content script (CopyTools.tsx 1352-1371)
def allowCopyStyleTextV2 : String :=
  "\n    * \x7b\n      -webkit-user-select: auto !important;\n      -moz-user-select: auto !important;\n      -ms-user-select: auto !important;\n      user-select: auto !important;\n      -webkit-touch-callout: auto !important;\n      -webkit-tap-highlight-color: transparent !important;\n    \x7d\n    ::selection \x7b\n      background: #007bff !important;\n      color: white !important;\n    \x7d\n    ::-moz-selection \x7b\n      background: #007bff !important;\n      color: white !important;\n    \x7d\n  "

-- page-level state the second content script's toggler works on; the
-- capture-phase event listeners it also installs have no bearing on
-- style rules or style elements and are not tracked
structure ProtPage where
  sheets : List (Option (List CssRule))
  styleTexts : List String
  copyProtectionDisabled : Bool
  originalStyles : List (Nat × Nat × CssRule)
deriving DecidableEq

-- disableCopyProtection, second content script (CopyTools.tsx 1316-1395)
def disableCopyProtectionV2 (ps : ProtPage) : ProtPage × ToggleResp :=
  ({ sheets := ps.sheets.map (Option.map neutralizeRules),
     styleTexts := ps.styleTexts ++ [allowCopyStyleTextV2],
     copyProtectionDisabled := true,
     originalStyles := ps.originalStyles ++ savedAllRules 0 ps.sheets },
   { success := true, copyEnabled := true, error := none })

-- enableCopyProtection, second content script (CopyTools.tsx 1398-1415)
def enableCopyProtectionV2 (ps : ProtPage) : ProtPage × ToggleResp :=
  ({ sheets := restoreSaved ps.originalStyles ps.sheets,
     styleTexts := ps.styleTexts.filter (fun t => !strIncludes t "user-select: auto"),
     copyProtectionDisabled := false,
     originalStyles := [] },
   { success := true, copyEnabled := false, error := none })

-- toggleCopyProtection, second content script (CopyTools.tsx 1418-1432)
def toggleCopyProtectionV2 (ps : ProtPage) : ProtPage × ToggleResp :=
  if ps.copyProtectionDisabled then enableCopyProtectionV2 ps
  else disableCopyProtectionV2 ps

-- --- enhanced content script variant (CopyTools.tsx 689-759) ---

structure ProtPageV1 where
  sheets : List (Option (List CssRule))
  styleTexts : List String
  copyProtectionDisabled : Bool
deriving DecidableEq

def getDecl (r : CssRule) (name : String) : String :=
  ((r.decls.find? (fun d => d.1 == name)).map (fun d => d.2)).getD ""

-- cssRule.style && (style.userSelect === 'none' ||
-- style.webkitUserSelect === 'none' || style.userSelect === 'none');
-- the third disjunct of the source repeats the first
def v1RuleMatches (r : CssRule) : Bool :=
  r.isStyleRule &&
    (getDecl r "user-select" == "none" || getDecl r "-webkit-user-select" == "none")

-- rules.forEach((rule, index) => { if match then sheet.deleteRule(index) })
-- over a snapshot of the rule list: deletions shift the live sheet, so a
-- stale index deletes whatever now sits there, and an out-of-range index
-- throws, aborting the rest of this sheet (caught by the per-sheet catch)
def v1ProcessSheet (rs : List CssRule) : List CssRule :=
  (rs.enum.foldl (fun (st : List CssRule × Bool) p =>
      if st.2 then st
      else if v1RuleMatches p.2 then
        if p.1 < st.1.length then (st.1.eraseIdx p.1, false) else (st.1, true)
      else st) (rs, false)).1

def allowCopyStyleTextV1 : String :=
  "\n      * \x7b\n        -webkit-user-select: text !important;\n        -moz-user-select: text !important;\n        -ms-user-select: text !important;\n        user-select: text !important;\n      \x7d\n    "

-- disableCopyProtection, enhanced content script: rules are deleted, not
-- saved, so re-enabling cannot bring them back
def disableCopyProtectionV1 (ps : ProtPageV1) : ProtPageV1 :=
  { sheets := ps.sheets.map (Option.map v1ProcessSheet),
    styleTexts := ps.styleTexts ++ [allowCopyStyleTextV1],
    copyProtectionDisabled := true }

-- enableCopyProtection, enhanced content script
def enableCopyProtectionV1 (ps : ProtPageV1) : ProtPageV1 :=
  { sheets := ps.sheets,
    styleTexts := ps.styleTexts.filter (fun t => !strIncludes t "user-select: text !important"),
    copyProtectionDisabled := false }

def toggleCopyProtectionV1 (ps : ProtPageV1) : ProtPageV1 × ToggleResp :=
  if ps.copyProtectionDisabled then
    (enableCopyProtectionV1 ps, { success := true, copyEnabled := false, error := none })
  else
    (disableCopyProtectionV1 ps, { success := true, copyEnabled := true, error := none })

-- ------------------------------------------------------------------
-- Message Router: the highlightTable branch (CopyTools.tsx 487-503 and
-- 906-912).  The current highlight is modelled as the index of the
-- highlighted candidate, if any; highlightTable always clears the
-- previous highlight first and sets a new one only for an in-range id.
-- ------------------------------------------------------------------

structure HandlerResp where
  status : Option String
  success : Option Bool
  error : Option String
deriving DecidableEq

def highlightTable (found : List TableEl) (tableId : Int) : Option Nat :=
  if 0 ≤ tableId ∧ tableId < (found.length : Int) then some tableId.toNat else none

-- the message-listener case "highlightTable": the highlight call is
-- guarded on request.tableId !== undefined, the response is not
def handleHighlightMsg (found : List TableEl) (tableId? : Option Int)
    (hl : Option Nat) : HandlerResp × Option Nat :=
  match tableId? with
  | some id => ({ status := none, success := some true, error := none }, highlightTable found id)
  | none => ({ status := none, success := some true, error := none }, hl)

-- ------------------------------------------------------------------
-- Helper lemmas
-- ------------------------------------------------------------------

theorem clearNetworkRules_dynamicRules (st : BgState) :
    (clearNetworkRules st).dynamicRules = [] := by
  by_cases h : 0 < (st.dynamicRules.map (fun r => r.id)).length
  · simp only [clearNetworkRules, h, if_true]
    rw [List.filter_eq_nil_iff]
    intro r hr
    simp only [Bool.not_eq_true', Bool.not_eq_false]
    have : r.id ∈ st.dynamicRules.map (fun r => r.id) := List.mem_map_of_mem _ hr
    exact List.elem_iff.mpr this
  · simp only [clearNetworkRules, h, if_false]
    simp only [List.length_map, Nat.pos_iff_ne_zero, ne_eq, not_not] at h
    exact List.length_eq_zero.mp h

theorem clearNetworkRules_customHeaders (st : BgState) :
    (clearNetworkRules st).customHeaders = st.customHeaders := by
  simp only [clearNetworkRules]
  split <;> rfl

theorem applyHeadersBg_eq (hs : List RequestHeader) (st : BgState) :
    applyHeadersBg hs st =
      { customHeaders := hs,
        dynamicRules := hs.enum.map (fun p => mkNetRule (p.1 + 1) p.2) } := by
  unfold applyHeadersBg updateNetworkRules
  have hc := clearNetworkRules_customHeaders { st with customHeaders := hs }
  have hd := clearNetworkRules_dynamicRules { st with customHeaders := hs }
  by_cases h : (clearNetworkRules { st with customHeaders := hs }).customHeaders.length = 0
  · rw [if_pos h]
    have : hs = [] := by
      rw [hc] at h
      exact List.length_eq_zero.mp h
    subst this
    cases hcl : clearNetworkRules { st with customHeaders := ([] : List RequestHeader) }
    rw [hcl] at hc hd
    simp_all
  · rw [if_neg h]
    cases hcl : clearNetworkRules { st with customHeaders := hs }
    rw [hcl] at hc hd
    simp_all

theorem enumFrom_map_succ_fst {α : Type} (l : List α) (i : Nat) :
    (l.enumFrom i).map (fun p => p.1 + 1) = List.range' (i + 1) l.length := by
  induction l generalizing i with
  | nil => rfl
  | cons a l ih => simp [List.enumFrom, List.range', ih]

/-- Claim C3: applying the same header list twice to the background worker
yields the same installed dynamic-rule set as applying it once, and the
installed rule ids are exactly the sequential integers 1..N matching each
header's position, because updateNetworkRules always clears all existing
dynamic rules before installing the new set. -/
theorem C3_theorem (hs : List RequestHeader) (st : BgState) :
    applyHeadersBg hs (applyHeadersBg hs st) = applyHeadersBg hs st ∧
    (applyHeadersBg hs st).dynamicRules.map (fun r => r.id) =
      List.range' 1 hs.length := by
  constructor
  · rw [applyHeadersBg_eq, applyHeadersBg_eq]
  · rw [applyHeadersBg_eq]
    simp only [List.map_map]
    have : ((fun r : NetRule => r.id) ∘ fun p : Nat × RequestHeader => mkNetRule (p.1 + 1) p.2)
        = fun p : Nat × RequestHeader => p.1 + 1 := rfl
    rw [this, List.enum, enumFrom_map_succ_fst]

/-- Claim C5: for a table id outside the candidate range (negative or at
least the number of found tables), the single-table clipboard export of
either content-script variant returns success = false with a non-empty
error message and performs no DOM mutation at all (empty effect trace, in
particular no temporary textarea). -/
theorem C5_theorem (env : ClipEnv) (found : List TableEl) (tableId : Int)
    (h : tableId < 0 ∨ (found.length : Int) ≤ tableId) :
    copySingleTableToClipboardV1 env found tableId =
      ({ success := false, error := some "无效的表格ID" }, []) ∧
    copySingleTableToClipboardV2 env found tableId =
      ({ success := false, error := some "表格ID无效" }, []) ∧
    "无效的表格ID" ≠ "" ∧ "表格ID无效" ≠ "" := by
  refine ⟨?_, ?_, by decide, by decide⟩
  · unfold copySingleTableToClipboardV1
    rw [if_pos h]
  · unfold copySingleTableToClipboardV2
    rw [if_pos h]

theorem C5_witness :
    ((0 : Int) < 0 ∨ ((List.length ([] : List TableEl) : Int) ≤ 0)) ∧
    copySingleTableToClipboardV1 ⟨true, true, true, true, true⟩ [] 0 =
      ({ success := false, error := some "无效的表格ID" }, []) :=
  ⟨by decide, (C5_theorem ⟨true, true, true, true, true⟩ [] 0 (by decide)).1⟩

/-- Claim C6: when a scan yields zero tables and fewer than 15 attempts
have been made (counting this one), the re-scan is rescheduled after
min(2000ms * 1.5^(attempts-1), 10000ms); once 15 attempts are reached no
re-scan is scheduled by the retry path. -/
theorem C6_theorem (st : DetState) (count : Nat) (notifyOk : Bool)
    (h : count = 0) :
    (st.detectionAttempts + 1 < 15 →
      (performTableDetectionStep count notifyOk st).sched =
        some (min ((2000 : ℚ) * (3 / 2) ^ st.detectionAttempts) 10000)) ∧
    (15 ≤ st.detectionAttempts + 1 →
      (performTableDetectionStep count notifyOk st).sched = none) := by
  subst h
  constructor
  · intro hlt
    simp [performTableDetectionStep, MAX_DETECTION_ATTEMPTS, hlt]
  · intro hge
    have hnlt : ¬ st.detectionAttempts + 1 < 15 := by omega
    simp [performTableDetectionStep, MAX_DETECTION_ATTEMPTS, hnlt]

theorem C6_witness :
    (performTableDetectionStep 0 true ⟨0, 0⟩).sched =
      some (min ((2000 : ℚ) * (3 / 2) ^ (0 : ℕ)) 10000) ∧
    (performTableDetectionStep 0 true ⟨0, 14⟩).sched = none :=
  ⟨(C6_theorem ⟨0, 0⟩ 0 true rfl).1 (by decide),
   (C6_theorem ⟨0, 14⟩ 0 true rfl).2 (by decide)⟩

/-- Claim C7: a detection step attempts the updateTables notification
exactly when the scanned count differs from the last known count or this
is the very first scan, and a delivery failure changes neither the
resulting detection state nor the scheduled retry (the error is
swallowed and retry/backoff continues unchanged). -/
theorem C7_theorem (st : DetState) (count : Nat) (notifyOk : Bool) :
    ((performTableDetectionStep count notifyOk st).notified = true ↔
      (count ≠ st.lastTableCount ∨ st.detectionAttempts = 0)) ∧
    (performTableDetectionStep count true st).state =
      (performTableDetectionStep count false st).state ∧
    (performTableDetectionStep count true st).sched =
      (performTableDetectionStep count false st).sched ∧
    (performTableDetectionStep count notifyOk st).state.detectionAttempts =
      st.detectionAttempts + 1 := by
  refine ⟨?_, rfl, rfl, rfl⟩
  unfold performTableDetectionStep
  simp

/-- Claim C10 counterexample: the handler also answers success = true when
tableId is absent from the request, identically to the defined-id case, so
it is false that the response differs only when tableId is missing. -/
theorem C10_counterexample :
    (handleHighlightMsg [] none none).1 =
      { status := none, success := some true, error := none } ∧
    (handleHighlightMsg [] (some 99) none).1 =
      { status := none, success := some true, error := none } :=
  ⟨rfl, rfl⟩

/-- Claim C10 (amended): the highlightTable message handler responds
success = true for every request, whether tableId is present, absent, or
out of range; an out-of-range id merely clears the highlight and an
absent id leaves the highlight untouched, with no error in any case. -/
theorem C10_theorem (found : List TableEl) (tableId? : Option Int) (hl : Option Nat) :
    (handleHighlightMsg found tableId? hl).1 =
      { status := none, success := some true, error := none } ∧
    (∀ id, tableId? = some id → (id < 0 ∨ (found.length : Int) ≤ id) →
      (handleHighlightMsg found tableId? hl).2 = none) ∧
    (tableId? = none → (handleHighlightMsg found tableId? hl).2 = hl) := by
  refine ⟨?_, ?_, ?_⟩
  · cases tableId? <;> rfl
  · intro id heq hout
    subst heq
    simp only [handleHighlightMsg, highlightTable]
    rw [if_neg]
    rintro ⟨hge, hlt⟩
    omega
  · intro heq
    subst heq
    rfl

theorem C10_witness :
    (handleHighlightMsg [] (some 99) (some 0)).1 =
      { status := none, success := some true, error := none } ∧
    (handleHighlightMsg [] (some 99) (some 0)).2 = none :=
  ⟨(C10_theorem [] (some 99) (some 0)).1,
   (C10_theorem [] (some 99) (some 0)).2.1 99 rfl (by decide)⟩

-- a visible, adequately sized 1x1 table with text, sitting inside a
-- jQuery-UI date-picker widget
def datePickerTable : TableEl :=
  { nid := 2, rows := [⟨[⟨"1", "1", 0⟩]⟩], display := "table", visibility := "visible",
    width := 120, height := 80, inDatePicker := true, idAttr := "",
    className := "ui-datepicker-calendar", outerHTML := "<table>d</table>" }

/-- Claim C4 counterexample: a table inside a date-picker widget is
accepted by isValidTable in relaxed mode (the .ui-datepicker denylist is
only consulted when relaxedMode is false), contradicting the claim that
relaxed mode excludes date-picker tables. -/
theorem C4_counterexample :
    isValidTable datePickerTable true = true ∧
    datePickerTable.inDatePicker = true ∧
    isValidTable datePickerTable false = false := by decide

-- Boolean characterization of the validator's decision
theorem isValidTable_eq_formula (t : TableEl) (rm : Bool) :
    isValidTable t rm =
      (!(t.display == "none" || t.visibility == "hidden") &&
       !decide (t.rows.length < 1) &&
       (if rm then hasAnyContentRelaxed t else hasAnyContentStrict t) &&
       !(!rm && t.inDatePicker) &&
       !(decide (t.width < 10) || decide (t.height < 5))) := by
  unfold isValidTable
  cases hv : (t.display == "none" || t.visibility == "hidden") <;>
    by_cases hr : t.rows.length < 1 <;>
      cases hc : (if rm then hasAnyContentRelaxed t else hasAnyContentStrict t) <;>
        cases hdp : (!rm && t.inDatePicker) <;>
          cases hsz : (decide (t.width < 10) || decide (t.height < 5)) <;>
            simp [hv, hr, hc, hdp, hsz]

/-- Claim C4 (amended): relaxed mode applies no denylist at all: every
table that is not display:none/visibility:hidden, has at least one row
and at least one cell in its first row, and meets the 10x5 minimum
bounding box is accepted in relaxed mode regardless of whether it sits in
a date-picker; the date-picker denylist is consulted only in strict mode,
where membership forces rejection. -/
theorem C4_theorem :
    (∀ t : TableEl, t.display ≠ "none" → t.visibility ≠ "hidden" →
      1 ≤ t.rows.length → 1 ≤ firstRowCellCount t →
      10 ≤ t.width → 5 ≤ t.height → isValidTable t true = true) ∧
    (∀ t : TableEl, t.inDatePicker = true → isValidTable t false = false) := by
  constructor
  · intro t h1 h2 h3 h4 h5 h6
    have e1 : (t.display == "none") = false := beq_eq_false_iff_ne.mpr h1
    have e2 : (t.visibility == "hidden") = false := beq_eq_false_iff_ne.mpr h2
    have e3 : ¬ t.rows.length < 1 := by omega
    have e5 : ¬ t.width < 10 := by omega
    have e6 : ¬ t.height < 5 := by omega
    simp [isValidTable_eq_formula, hasAnyContentRelaxed, e1, e2, e3, e5, e6, h3, h4]
  · intro t hd
    rw [isValidTable_eq_formula]
    simp [hd]

theorem C4_witness :
    isValidTable datePickerTable true = true ∧
    isValidTable datePickerTable false = false :=
  ⟨C4_theorem.1 datePickerTable (by decide) (by decide) (by decide) (by decide)
      (by decide) (by decide),
   C4_theorem.2 datePickerTable rfl⟩

-- a visible table whose first row has no cells but whose second row has a
-- non-empty cell: the strict content scan accepts it, the relaxed
-- first-row check does not
def emptyFirstRowTable : TableEl :=
  { nid := 1, rows := [⟨[]⟩, ⟨[⟨"x", "x", 0⟩]⟩], display := "table",
    visibility := "visible", width := 100, height := 50, inDatePicker := false,
    idAttr := "", className := "", outerHTML := "<table>1</table>" }

def emptyFirstRowDom : Dom :=
  { mainTables := [emptyFirstRowTable], iframeDocs := [], containerTables := [] }

/-- Claim C1 counterexample: a table whose first row is empty but whose
second row has content passes strict validation yet fails relaxed
validation, so on a document containing exactly this table
findTables(relaxed=false) returns 1 descriptor while
findTables(relaxed=true) returns 0 — relaxed excludes something strict
accepts. -/
theorem C1_counterexample :
    isValidTable emptyFirstRowTable false = true ∧
    isValidTable emptyFirstRowTable true = false ∧
    (findTables false emptyFirstRowDom).length = 1 ∧
    (findTables true emptyFirstRowDom).length = 0 := by decide

theorem strict_valid_imp_relaxed (t : TableEl) (hfr : 1 ≤ firstRowCellCount t)
    (hs : isValidTable t false = true) : isValidTable t true = true := by
  rw [isValidTable_eq_formula] at hs ⊢
  simp only [Bool.and_eq_true] at hs ⊢
  obtain ⟨⟨⟨⟨a, b⟩, _⟩, _⟩, e⟩ := hs
  refine ⟨⟨⟨⟨a, b⟩, ?_⟩, ?_⟩, e⟩
  · have hlen : 1 ≤ t.rows.length := by
      simp only [Bool.not_eq_true', decide_eq_false_iff_not] at b
      omega
    simp [hasAnyContentRelaxed, hlen, hfr]
  · simp

theorem length_filter_le_of_imp {α : Type} (l : List α) (p q : α → Bool)
    (h : ∀ a ∈ l, p a = true → q a = true) :
    (l.filter p).length ≤ (l.filter q).length := by
  induction l with
  | nil => simp
  | cons a l ih =>
    have ih' := ih (fun x hx hpx => h x (List.mem_cons_of_mem _ hx) hpx)
    by_cases hp : p a = true
    · have hq := h a (List.mem_cons_self a l) hp
      simp only [List.filter_cons, if_pos hp, if_pos hq, List.length_cons]
      omega
    · by_cases hq : q a = true
      · simp only [List.filter_cons, if_neg hp, if_pos hq, List.length_cons]
        omega
      · simp only [List.filter_cons, if_neg hp, if_neg hq]
        exact ih'

/-- Claim C1 (amended): relaxed acceptance is a superset of strict
acceptance only for tables whose first row has at least one cell: under
that proviso, isValidTable(t, false) = true implies
isValidTable(t, true) = true, and for any document all of whose candidate
tables have a non-empty first row, findTables(relaxed=true) returns at
least as many descriptors as findTables(relaxed=false).  (Without the
proviso the implication fails, see the counterexample.) -/
theorem C1_theorem :
    (∀ t : TableEl, 1 ≤ firstRowCellCount t →
      isValidTable t false = true → isValidTable t true = true) ∧
    (∀ dom : Dom, (∀ t ∈ collectTables dom, 1 ≤ firstRowCellCount t) →
      (findTables false dom).length ≤ (findTables true dom).length) := by
  constructor
  · exact strict_valid_imp_relaxed
  · intro dom hall
    unfold findTables
    simp only [List.length_map, List.enum_length]
    exact length_filter_le_of_imp _ _ _
      (fun t ht => strict_valid_imp_relaxed t (hall t ht))

-- a plain visible 1x1 table with content, valid in both modes
def plainTable : TableEl :=
  { nid := 7, rows := [⟨[⟨"x", "x", 0⟩]⟩], display := "table",
    visibility := "visible", width := 100, height := 50, inDatePicker := false,
    idAttr := "", className := "", outerHTML := "<table>p</table>" }

def plainDom : Dom :=
  { mainTables := [plainTable], iframeDocs := [], containerTables := [] }

theorem C1_witness :
    isValidTable plainTable true = true ∧
    (findTables false plainDom).length ≤ (findTables true plainDom).length :=
  ⟨C1_theorem.1 plainTable (by decide) (by decide),
   C1_theorem.2 plainDom (by decide)⟩

def envAllOk : ClipEnv :=
  { clipboardDefined := true, writeTextIsFunction := true, secureContext := true,
    writeSucceeds := true, execCommandOk := true }

def sampleTable : TableEl :=
  { dummyTable with nid := 3, outerHTML := "<table><tr><td>A</td></tr></table>" }

/-- Claim C8 counterexample: the enhanced content script's all-tables
export writes the raw outerHTML fragments joined by blank lines with no
index label at all — for a one-table candidate set the clipboard payload
is exactly the table's outerHTML, which contains neither the 表格 label
word nor the === label frame, contradicting the claim that each table's
markup is prefixed by a human-readable index label. -/
theorem C8_counterexample :
    copyTablesToClipboardV1 envAllOk [sampleTable] =
      ({ success := true, error := none },
       [DomOp.appendButton,
        DomOp.clipboardWrite "<table><tr><td>A</td></tr></table>",
        DomOp.removeButton]) ∧
    strIncludes "<table><tr><td>A</td></tr></table>" "表格" = false ∧
    strIncludes "<table><tr><td>A</td></tr></table>" "===" = false := by
  refine ⟨by decide, by decide, by decide⟩

/-- Claim C8 (amended): only the second content-script variant labels the
payload: for a non-empty candidate set, with the clipboard API available
and succeeding, its all-tables export writes exactly the concatenation of
per-table fragments "=== 表格 (i+1) ===\n" ++ outerHTML ++ "\n" joined by
newlines; the enhanced variant joins raw outerHTML without labels (see
the counterexample). -/
theorem C8_theorem (env : ClipEnv) (found : List TableEl) (hne : found ≠ [])
    (hs : supportsClipboardAPIv2 env = true) (hw : env.writeSucceeds = true) :
    copyTablesToClipboardV2 env found =
      ({ success := true, error := none },
       [DomOp.clipboardWrite (strJoin "\n"
          (found.enum.map (fun p => tableLabelV2 (p.1 + 1) p.2.outerHTML)))]) := by
  unfold copyTablesToClipboardV2
  rw [if_neg (fun h => hne (List.length_eq_zero.mp h))]
  unfold clipboardPipelineV2
  rw [if_pos hs, if_pos hw]

theorem C8_witness :
    copyTablesToClipboardV2 envAllOk [sampleTable] =
      ({ success := true, error := none },
       [DomOp.clipboardWrite (strJoin "\n"
          (([sampleTable] : List TableEl).enum.map
            (fun p => tableLabelV2 (p.1 + 1) p.2.outerHTML)))]) :=
  C8_theorem envAllOk [sampleTable] (by decide) rfl rfl

theorem strJoin_foldl_length (sep : String) (l : List String) (acc : String) :
    acc.length ≤ (l.foldl (fun a x => a ++ sep ++ x) acc).length := by
  induction l generalizing acc with
  | nil => simp
  | cons x xs ih =>
    refine le_trans ?_ (ih (acc ++ sep ++ x))
    simp only [String.length_append]
    omega

theorem strJoin_cons_ne_empty (sep a : String) (l : List String) (ha : a ≠ "") :
    strJoin sep (a :: l) ≠ "" := by
  intro h
  have h1 : a.length ≤ (strJoin sep (a :: l)).length := strJoin_foldl_length sep l a
  rw [h] at h1
  have h2 : a.length = 0 := by
    simpa using h1
  obtain ⟨data⟩ := a
  cases data with
  | nil => exact ha rfl
  | cons c cs => simp [String.length] at h2

theorem tableLabelV2_ne_empty (n : Nat) (html : String) : tableLabelV2 n html ≠ "" := by
  intro h
  have h2 := congrArg String.length h
  simp [tableLabelV2, String.length_append] at h2
  exact absurd h2.2 (by decide)

-- the entries the second variant's copySelectedTables builds are exactly
-- the labels of the in-range ids
theorem v2SelectedEntries (found : List TableEl) (ids : List Int) :
    ids.filterMap (fun id =>
        if id < 0 ∨ (found.length : Int) ≤ id then none
        else some (tableLabelV2 (id.toNat + 1) (tableAt found id).outerHTML))
      = (validSelectedIds found ids).map
          (fun id => tableLabelV2 (id.toNat + 1) (tableAt found id).outerHTML) := by
  induction ids with
  | nil => rfl
  | cons id ids ih =>
    by_cases h : id < 0 ∨ (found.length : Int) ≤ id
    · have hb : (decide (0 ≤ id) && decide (id < (found.length : Int))) = false := by
        rcases h with h | h
        · simp [decide_eq_false (not_le.mpr h)]
        · simp [decide_eq_false (not_lt.mpr h)]
      simp only [List.filterMap_cons, if_pos h, validSelectedIds, List.filter_cons, hb,
        if_false, Bool.false_eq_true] at ih ⊢
      exact ih
    · push_neg at h
      have hb : (decide (0 ≤ id) && decide (id < (found.length : Int))) = true := by
        simp [h.1, h.2]
      have h' : ¬ (id < 0 ∨ (found.length : Int) ≤ id) := by omega
      simp only [List.filterMap_cons, if_neg h', validSelectedIds, List.filter_cons, hb,
        if_true, List.map_cons] at ih ⊢
      rw [ih]

/-- Claim C9: for the selected-tables export of either content-script
variant, with a working clipboard: an empty id list yields a structured
error; a non-empty list whose ids are all out of range yields a
structured error; and whenever at least one id is in range the
out-of-range ids are silently dropped and the copy succeeds, writing
exactly the payload built from the in-range ids in order. -/
theorem C9_theorem (env : ClipEnv) (found : List TableEl) (ids : List Int)
    (h1 : supportsClipboardAPIv1 env = true)
    (h2 : supportsClipboardAPIv2 env = true)
    (hw : env.writeSucceeds = true) :
    (ids = [] →
      copySelectedTablesToClipboardV1 env found ids =
        ({ success := false, error := some "没有选中的表格" }, []) ∧
      copySelectedTablesToClipboardV2 env found ids =
        ({ success := false, error := some "没有选择表格" }, [])) ∧
    (ids ≠ [] → validSelectedIds found ids = [] →
      copySelectedTablesToClipboardV1 env found ids =
        ({ success := false, error := some "选中的表格ID无效" }, []) ∧
      copySelectedTablesToClipboardV2 env found ids =
        ({ success := false, error := some "没有有效的表格" }, [])) ∧
    (validSelectedIds found ids ≠ [] →
      copySelectedTablesToClipboardV1 env found ids =
        ({ success := true, error := none },
         [DomOp.appendButton,
          DomOp.clipboardWrite (strJoin "\n\n"
            ((validSelectedIds found ids).map (fun id => (tableAt found id).outerHTML))),
          DomOp.removeButton]) ∧
      copySelectedTablesToClipboardV2 env found ids =
        ({ success := true, error := none },
         [DomOp.clipboardWrite (strJoin "\n"
            ((validSelectedIds found ids).map
              (fun id => tableLabelV2 (id.toNat + 1) (tableAt found id).outerHTML)))])) := by
  refine ⟨?_, ?_, ?_⟩
  · intro h
    subst h
    exact ⟨rfl, rfl⟩
  · intro hne hval
    constructor
    · unfold copySelectedTablesToClipboardV1
      rw [if_neg (fun h => hne (List.length_eq_zero.mp h))]
      rw [if_pos (by simp [hval])]
    · unfold copySelectedTablesToClipboardV2
      rw [if_neg (fun h => hne (List.length_eq_zero.mp h)), v2SelectedEntries, hval]
      rw [if_pos (by rfl)]
  · intro hval
    have hne : ids ≠ [] := by
      intro h
      subst h
      exact hval rfl
    constructor
    · unfold copySelectedTablesToClipboardV1
      rw [if_neg (fun h => hne (List.length_eq_zero.mp h))]
      rw [if_neg (by simp [List.length_eq_zero, hval])]
      unfold clipboardPipelineV1
      rw [if_pos h1, if_pos hw]
      simp [List.map_map]
      rfl
    · unfold copySelectedTablesToClipboardV2
      rw [if_neg (fun h => hne (List.length_eq_zero.mp h)), v2SelectedEntries]
      have hnm : strJoin "\n" ((validSelectedIds found ids).map
          (fun id => tableLabelV2 (id.toNat + 1) (tableAt found id).outerHTML)) ≠ "" := by
        cases hv : validSelectedIds found ids with
        | nil => exact absurd hv hval
        | cons a as =>
          rw [List.map_cons]
          exact strJoin_cons_ne_empty _ _ _ (tableLabelV2_ne_empty _ _)
      rw [if_neg (by simpa using hnm)]
      unfold clipboardPipelineV2
      rw [if_pos h2, if_pos hw]

theorem C9_witness :
    validSelectedIds [sampleTable] [0, 5, -1] ≠ [] ∧
    copySelectedTablesToClipboardV1 envAllOk [sampleTable] [0, 5, -1] =
      ({ success := true, error := none },
       [DomOp.appendButton,
        DomOp.clipboardWrite (strJoin "\n\n"
          ((validSelectedIds [sampleTable] [0, 5, -1]).map
            (fun id => (tableAt [sampleTable] id).outerHTML))),
        DomOp.removeButton]) ∧
    copySelectedTablesToClipboardV2 envAllOk [sampleTable] [0, 5, -1] =
      ({ success := true, error := none },
       [DomOp.clipboardWrite (strJoin "\n"
          ((validSelectedIds [sampleTable] [0, 5, -1]).map
            (fun id => tableLabelV2 (id.toNat + 1) (tableAt [sampleTable] id).outerHTML)))]) :=
  ⟨by decide,
   ((C9_theorem envAllOk [sampleTable] [0, 5, -1] rfl rfl rfl).2.2 (by decide)).1,
   ((C9_theorem envAllOk [sampleTable] [0, 5, -1] rfl rfl rfl).2.2 (by decide)).2⟩

theorem set_cons_succ (r : CssRule) (rs : List CssRule) (n : Nat) (x : CssRule) :
    (r :: rs).set (n + 1) x = r :: rs.set n x := rfl

theorem savedRulesFrom_succ (rs : List CssRule) (j : Nat) :
    savedRulesFrom (j + 1) rs = (savedRulesFrom j rs).map (fun q => (q.1 + 1, q.2)) := by
  induction rs generalizing j with
  | nil => rfl
  | cons r rs ih =>
    by_cases h : shouldNeutralize r = true
    · simp [savedRulesFrom, h, ih]
    · simp [savedRulesFrom, h, ih]

theorem foldl_set_map_succ (sv : List (Nat × CssRule)) (r : CssRule) (rs : List CssRule) :
    (sv.map (fun q => (q.1 + 1, q.2))).foldl (fun acc q => acc.set q.1 q.2) (r :: rs)
      = r :: sv.foldl (fun acc q => acc.set q.1 q.2) rs := by
  induction sv generalizing rs with
  | nil => rfl
  | cons q sv ih =>
    simp only [List.map_cons, List.foldl_cons]
    rw [set_cons_succ]
    exact ih _

-- restoring one sheet's save-table undoes its neutralization
theorem restore_neutralize (rs : List CssRule) :
    (savedRulesFrom 0 rs).foldl (fun acc q => acc.set q.1 q.2) (neutralizeRules rs) = rs := by
  induction rs with
  | nil => rfl
  | cons r rs ih =>
    by_cases h : shouldNeutralize r = true
    · simp only [neutralizeRules, List.map_cons, savedRulesFrom, h, if_true]
      rw [savedRulesFrom_succ]
      simp only [List.foldl_cons, List.set_cons_zero]
      rw [foldl_set_map_succ]
      exact congrArg (List.cons r) ih
    · simp only [neutralizeRules, List.map_cons, savedRulesFrom, h, if_false, Bool.false_eq_true]
      rw [savedRulesFrom_succ, foldl_set_map_succ]
      exact congrArg (List.cons r) ih

theorem setRuleAt_succ (sheets : List (Option (List CssRule))) (s : Option (List CssRule))
    (i j : Nat) (r : CssRule) :
    setRuleAt (s :: sheets) (i + 1) j r = s :: setRuleAt sheets i j r := rfl

theorem setRuleAt_zero_some (rs : List CssRule) (sheets : List (Option (List CssRule)))
    (j : Nat) (r : CssRule) :
    setRuleAt (some rs :: sheets) 0 j r = some (rs.set j r) :: sheets := rfl

theorem savedAllRules_succ (sheets : List (Option (List CssRule))) (i : Nat) :
    savedAllRules (i + 1) sheets = (savedAllRules i sheets).map (fun e => (e.1 + 1, e.2)) := by
  induction sheets generalizing i with
  | nil => rfl
  | cons os sheets ih =>
    cases os with
    | none => simp [savedAllRules, ih]
    | some rs =>
      simp only [savedAllRules, List.map_append, List.map_map, ih]
      rfl

theorem restoreSaved_map_succ (sv : List (Nat × Nat × CssRule))
    (s : Option (List CssRule)) (sheets : List (Option (List CssRule))) :
    restoreSaved (sv.map (fun e => (e.1 + 1, e.2))) (s :: sheets)
      = s :: restoreSaved sv sheets := by
  induction sv generalizing sheets with
  | nil => rfl
  | cons e sv ih =>
    simp only [List.map_cons, restoreSaved, List.foldl_cons] at ih ⊢
    rw [setRuleAt_succ]
    exact ih _

theorem restoreSaved_zero_entries (sv : List (Nat × CssRule)) (rs : List CssRule)
    (sheets : List (Option (List CssRule))) :
    restoreSaved (sv.map (fun q => ((0 : Nat), q.1, q.2))) (some rs :: sheets)
      = some (sv.foldl (fun acc q => acc.set q.1 q.2) rs) :: sheets := by
  induction sv generalizing rs with
  | nil => rfl
  | cons q sv ih =>
    simp only [List.map_cons, restoreSaved, List.foldl_cons, setRuleAt_zero_some] at ih ⊢
    exact ih _

theorem restoreSaved_append (a b : List (Nat × Nat × CssRule))
    (sheets : List (Option (List CssRule))) :
    restoreSaved (a ++ b) sheets = restoreSaved b (restoreSaved a sheets) :=
  List.foldl_append _ _ _ _

-- the save-table built while neutralizing restores every sheet exactly
theorem restore_disable_sheets (sheets : List (Option (List CssRule))) :
    restoreSaved (savedAllRules 0 sheets) (sheets.map (Option.map neutralizeRules))
      = sheets := by
  induction sheets with
  | nil => rfl
  | cons os sheets ih =>
    cases os with
    | none =>
      simp only [savedAllRules, List.map_cons, Option.map_none']
      rw [savedAllRules_succ, restoreSaved_map_succ, ih]
    | some rs =>
      simp only [savedAllRules, List.map_cons, Option.map_some']
      rw [restoreSaved_append, restoreSaved_zero_entries, restore_neutralize,
        savedAllRules_succ, restoreSaved_map_succ, ih]

def noCopyRule : CssRule :=
  { isStyleRule := true, selectorText := ".no-copy", decls := [("user-select", "none")] }

def v1Page : ProtPageV1 :=
  { sheets := [some [noCopyRule]], styleTexts := [], copyProtectionDisabled := false }

/-- Claim C2 counterexample: in the enhanced content script the disable
path deletes every rule whose declarations set user-select: none instead
of saving it, so toggling twice leaves the sheet empty rather than
restoring the rule's cssText — the toggle is not reversible there. -/
theorem C2_counterexample :
    (toggleCopyProtectionV1 (toggleCopyProtectionV1 v1Page).1).1.sheets = [some []] ∧
    v1Page.sheets = [some [noCopyRule]] ∧
    (toggleCopyProtectionV1 (toggleCopyProtectionV1 v1Page).1).1.sheets ≠ v1Page.sheets := by
  refine ⟨by decide, rfl, by decide⟩

/-- Claim C2 (amended): the toggle is fully reversible only in the
save/restore content-script variant: starting from an enabled-protection
state with an empty save-table, toggle(); toggle() restores every style
rule of every accessible sheet to its original value (hence its cssText
byte-for-byte), empties the save-table, resets the flag, and leaves no
injected override style element (none containing the "user-select: auto"
signature survives the enable pass); in the enhanced variant the disable
path deletes matching rules outright and re-enabling does not restore
them (see the counterexample). -/
theorem C2_theorem (ps : ProtPage) (h1 : ps.copyProtectionDisabled = false)
    (h2 : ps.originalStyles = []) :
    (toggleCopyProtectionV2 (toggleCopyProtectionV2 ps).1).1.sheets = ps.sheets ∧
    (toggleCopyProtectionV2 (toggleCopyProtectionV2 ps).1).1.originalStyles = [] ∧
    (toggleCopyProtectionV2 (toggleCopyProtectionV2 ps).1).1.copyProtectionDisabled = false ∧
    allowCopyStyleTextV2 ∉ (toggleCopyProtectionV2 (toggleCopyProtectionV2 ps).1).1.styleTexts := by
  have step1 : (toggleCopyProtectionV2 ps).1 = (disableCopyProtectionV2 ps).1 := by
    unfold toggleCopyProtectionV2
    rw [if_neg (by simp [h1])]
  rw [step1]
  have step2 : ((disableCopyProtectionV2 ps).1).copyProtectionDisabled = true := rfl
  unfold toggleCopyProtectionV2
  rw [if_pos step2]
  unfold disableCopyProtectionV2 enableCopyProtectionV2
  refine ⟨?_, rfl, rfl, ?_⟩
  · simp only [h2, List.nil_append]
    exact restore_disable_sheets ps.sheets
  · intro hmem
    have hp := (List.mem_filter.mp hmem).2
    have hsig : strIncludes allowCopyStyleTextV2 "user-select: auto" = true := by decide
    simp [hsig] at hp

def selRule : CssRule :=
  { isStyleRule := true, selectorText := "div ::selection",
    decls := [("user-select", "none"), ("color", "red")] }

def v2Page : ProtPage :=
  { sheets := [some [selRule, noCopyRule], none, some []],
    styleTexts := ["p \x7b margin: 0 \x7d"], copyProtectionDisabled := false,
    originalStyles := [] }

theorem C2_witness :
    (toggleCopyProtectionV2 (toggleCopyProtectionV2 v2Page).1).1.sheets = v2Page.sheets ∧
    allowCopyStyleTextV2 ∉ (toggleCopyProtectionV2 (toggleCopyProtectionV2 v2Page).1).1.styleTexts :=
  ⟨(C2_theorem v2Page rfl rfl).1, (C2_theorem v2Page rfl rfl).2.2.2⟩

end WorkTool
